import Mathlib

/-!
Shallow embedding of the semantic intent-resolution and dispatch engine of
this repository: the action catalog (`automation_functions.py`), the code
snippet template (`code_generator.py`), and the resolution/dispatch pipeline
(`api.py`: `clear_and_store_functions`, `retrieve_best_function`,
`execute_function`, `execute_multiple`, with the module-level
`session_memory`, `ALLOWED_FUNCTIONS` and `SIMILARITY_THRESHOLD`).

Modelling conventions:
- Python runtime values carried by handlers are `PyValue`; Python truthiness
  is `PyValue.truthy`.
- A handler call either returns a value, raises `TypeError`, or raises some
  other exception carrying its `str(e)` rendering (`HandlerResult`).
- The sentence-transformer embedding model and the vector distance metric of
  the ChromaDB index are external collaborators; they are passed as explicit
  parameters `encode : String → EmbVec` and `dist : EmbVec → EmbVec → ℚ`.
  Distances are modelled as rationals; only their order relative to the
  threshold matters to the embedded control flow.
- The ChromaDB collection is a list of (id, embedding vector) entries; the
  process-wide `session_memory` dict is a total map from session id to the
  recorded history, with a missing key reading as the empty history (this is
  exactly how the source reads it: `setdefault(session_id, [])` and
  `session_memory.get(session_id, [])`).
- Environment-dependent observations made by handlers (psutil readings,
  `os.listdir`) are fields of an explicit `Env` record.
-/

/-- Python runtime values relevant to the embedded handlers. -/
inductive PyValue where
  | none
  | bool (b : Bool)
  | int (n : Int)
  | str (s : String)
deriving DecidableEq

/-- Python truthiness of a `PyValue`, as used by `if result:` and
`if params:` in `api.py`. -/
def PyValue.truthy : PyValue → Bool
  | PyValue.none => false
  | PyValue.bool b => b
  | PyValue.int n => n != 0
  | PyValue.str s => s != ""

/-- Outcome of invoking a Python handler: a returned value, a raised
`TypeError`, or any other raised exception carrying its `str(e)` text. -/
inductive HandlerResult where
  | ok (v : PyValue)
  | typeError (msg : String)
  | otherError (msg : String)
deriving DecidableEq

/-- Keyword arguments of a Python call, as bound by `f(**params)`. -/
abbrev KwArgs := List (String × PyValue)

/-- A registered action handler: receives keyword arguments ([] models a
plain `f()` call, which Python treats exactly like `f(**{})`). -/
abbrev Handler := KwArgs → HandlerResult

/-- Ambient machine state observed by the handlers of
`automation_functions.py`: the rendered psutil percentages and the result of
`os.listdir` (either a file listing or the `str(e)` of a raised exception,
since `list_files` catches internally). -/
structure Env where
  cpuPercent : String
  ramPercent : String
  listdir : String → Except String (List String)

/-- A single-quote character as a string (used by the `list_files`
message). -/
def squote : String := String.singleton (Char.ofNat 39)

/-- `automation_functions.open_chrome`: opens a browser; no return
statement, hence `None`. Any keyword argument raises `TypeError`. -/
def open_chrome : Handler := fun kwargs =>
  match kwargs with
  | [] => HandlerResult.ok PyValue.none
  | (k, _) :: _ =>
      HandlerResult.typeError ("open_chrome() got an unexpected keyword argument " ++ k)

/-- `automation_functions.open_calculator`: `os.system("calc")`; no return
statement, hence `None`. -/
def open_calculator : Handler := fun kwargs =>
  match kwargs with
  | [] => HandlerResult.ok PyValue.none
  | (k, _) :: _ =>
      HandlerResult.typeError ("open_calculator() got an unexpected keyword argument " ++ k)

/-- `automation_functions.open_notepad`: `os.system("notepad")`; no return
statement, hence `None`. -/
def open_notepad : Handler := fun kwargs =>
  match kwargs with
  | [] => HandlerResult.ok PyValue.none
  | (k, _) :: _ =>
      HandlerResult.typeError ("open_notepad() got an unexpected keyword argument " ++ k)

/-- `automation_functions.get_cpu_usage`: returns
`f"CPU Usage: {psutil.cpu_percent()}%"`. -/
def get_cpu_usage (env : Env) : Handler := fun kwargs =>
  match kwargs with
  | [] => HandlerResult.ok (PyValue.str ("CPU Usage: " ++ env.cpuPercent ++ "%"))
  | (k, _) :: _ =>
      HandlerResult.typeError ("get_cpu_usage() got an unexpected keyword argument " ++ k)

/-- `automation_functions.get_ram_usage`: returns
`f"RAM Usage: {ram.percent}%"`. -/
def get_ram_usage (env : Env) : Handler := fun kwargs =>
  match kwargs with
  | [] => HandlerResult.ok (PyValue.str ("RAM Usage: " ++ env.ramPercent ++ "%"))
  | (k, _) :: _ =>
      HandlerResult.typeError ("get_ram_usage() got an unexpected keyword argument " ++ k)

/-- Body of `automation_functions.list_files` for a given directory: the
function catches every exception itself and returns a string either way. -/
def list_files_run (env : Env) (directory : String) : HandlerResult :=
  match env.listdir directory with
  | Except.ok files =>
      HandlerResult.ok (PyValue.str
        ("Files in " ++ squote ++ directory ++ squote ++ ": " ++ String.intercalate ", " files))
  | Except.error e =>
      HandlerResult.ok (PyValue.str ("Error listing files: " ++ e))

/-- `automation_functions.list_files(directory=".")`: the one catalog entry
with a (defaulted) parameter and the only one carrying a docstring. Only a
string-valued `directory` keyword is modelled; any other keyword argument
raises `TypeError`. -/
def list_files (env : Env) : Handler := fun kwargs =>
  match kwargs with
  | [] => list_files_run env "."
  | [("directory", PyValue.str d)] => list_files_run env d
  | (k, _) :: _ =>
      HandlerResult.typeError ("list_files() got an unexpected keyword argument " ++ k)

/-- `ALLOWED_FUNCTIONS = get_available_functions()` in `api.py`:
`inspect.getmembers(automation_functions, inspect.isfunction)` returns the
module functions sorted by name. -/
def ALLOWED_FUNCTIONS (env : Env) : List (String × Handler) :=
  [("get_cpu_usage", get_cpu_usage env),
   ("get_ram_usage", get_ram_usage env),
   ("list_files", list_files env),
   ("open_calculator", open_calculator),
   ("open_chrome", open_chrome),
   ("open_notepad", open_notepad)]

/-- Dict lookup `ALLOWED_FUNCTIONS[name]` (with `None` for a missing key,
used to model `name not in ALLOWED_FUNCTIONS`). -/
def allowed_lookup (env : Env) : String → Option Handler :=
  fun name => (ALLOWED_FUNCTIONS env).lookup name

/-- `list(ALLOWED_FUNCTIONS.keys())`: the registered action names, in the
order `inspect.getmembers` yields them. -/
def allowed_function_names : List String :=
  ["get_cpu_usage", "get_ram_usage", "list_files", "open_calculator",
   "open_chrome", "open_notepad"]

/-- Docstrings of the catalog functions (`func.__doc__`): only `list_files`
has one. -/
def function_doc : String → Option String := fun name =>
  if name = "list_files" then some "Lists files in the specified directory."
  else Option.none

/-- Modelled from the spec: the descriptor of an action, "its human-readable
description when one exists, defaulting to the action's name itself only
when no description exists". Stated from the spec's words to compare with
what `clear_and_store_functions` actually embeds. -/
def descriptorSpec (name : String) : String :=
  (function_doc name).getD name

/-- `code_generator.generate_code`: a pure f-string template over the
function name. -/
def generate_code (function_name : String) : String :=
  "\nfrom automation import " ++ function_name ++
  "\n\ndef main():\n    try:\n        result = " ++ function_name ++
  "()\n        if result:\n            print(result)\n        else:\n            print(\"" ++
  function_name ++
  " executed successfully.\")\n    except Exception as e:\n        print(f\"Error executing function: {e}\")\n\nif __name__ == \"__main__\":\n    main()\n    "

/-- An embedding vector produced by the sentence-transformer model. -/
abbrev EmbVec := List ℚ

/-- `SIMILARITY_THRESHOLD = 0.45` in `api.py`, written as the reduced
fraction 9/20 in explicit normal form (see `SIMILARITY_THRESHOLD_eq_dec`
below for the equality with the decimal literal). -/
def SIMILARITY_THRESHOLD : ℚ := ⟨9, 20, by decide, by decide⟩

/-- `api.py` `clear_and_store_functions`: reads the ids currently persisted
in the collection, deletes every one of them when any exist, then adds one
fresh entry per registered function name — crucially, the text handed to
`embedding_model.encode` is the function *name* list itself. -/
def clear_and_store_functions (encode : String → EmbVec)
    (col : List (String × EmbVec)) : List (String × EmbVec) :=
  let existing_records := col.map Prod.fst
  let cleared :=
    if existing_records.isEmpty then col
    else col.filter (fun entry => !(existing_records.elem entry.1))
  cleared ++ allowed_function_names.map (fun n => (n, encode n))

/-- The process-wide `session_memory` dict: a total map from session id to
recorded history, a missing key reading as `[]` (the source only ever reads
it through `setdefault(session_id, [])` and `.get(session_id, [])`). -/
abbrev SessionMemory := String → List String

/-- Lines 77-79 of `api.py` inside `retrieve_best_function`:
`session_memory.setdefault(session_id, [])` followed by an append of the
prompt only when it is not already in that session's history. -/
def record (m : SessionMemory) (session_id prompt : String) : SessionMemory :=
  fun s =>
    if s = session_id then
      if prompt ∈ m session_id then m session_id else m session_id ++ [prompt]
    else m s

/-- `collection.query(query_embeddings=[v], n_results=1)`: the entry of the
collection closest to the query vector (the first one among ties, an order
the underlying library does not pin down), or nothing when the collection is
empty. -/
def queryNearest (dist : EmbVec → EmbVec → ℚ) (col : List (String × EmbVec))
    (q : EmbVec) : Option (String × ℚ) :=
  match col with
  | [] => Option.none
  | e :: rest =>
      some (rest.foldl
        (fun best entry =>
          if dist q entry.2 < best.2 then (entry.1, dist q entry.2) else best)
        (e.1, dist q e.2))

/-- The shared mutable state of `api.py` threaded through the embedding: the
ChromaDB collection and the `session_memory` dict. -/
structure ApiState where
  collection : List (String × EmbVec)
  session_memory : SessionMemory

/-- `api.py` `retrieve_best_function`: records the prompt into session
memory, embeds it, queries the nearest collection entry, and rejects the
match when its distance is strictly above `SIMILARITY_THRESHOLD`. Returns
the resolved name (or `None`) together with the updated state. -/
def retrieve_best_function (encode : String → EmbVec)
    (dist : EmbVec → EmbVec → ℚ) (prompt session_id : String)
    (st : ApiState) : Option String × ApiState :=
  let st2 := { st with session_memory := record st.session_memory session_id prompt }
  match queryNearest dist st2.collection (encode prompt) with
  | Option.none => (Option.none, st2)
  | some (best_match_id, best_match_score) =>
      if best_match_score > SIMILARITY_THRESHOLD then (Option.none, st2)
      else (some best_match_id, st2)

/-- `api.py` `execute_function`: the allow-list check raises
`ValueError("Unauthorized function access")`, which the function's own
generic `except Exception` clause catches and converts to `str(e)`; a
truthy `params` dict is bound as keyword arguments while `None` or `{}`
leads to a plain call (`f(**{})` is identical to `f()`, so both are
modelled as a `[]` keyword list); a raised `TypeError` becomes the fixed
parameter-error message, any other exception becomes its text, and a falsy
result is replaced by `"Executed Successfully"`. The embedded function is
total: no exception ever propagates out of it. -/
def execute_function (registry : String → Option Handler)
    (function_name : String) (params : Option KwArgs) : PyValue :=
  match registry function_name with
  | Option.none => PyValue.str "Unauthorized function access"
  | some f =>
      match f (params.getD []) with
      | HandlerResult.ok result =>
          if result.truthy then result else PyValue.str "Executed Successfully"
      | HandlerResult.typeError _ =>
          PyValue.str ("Error: Function " ++ function_name ++ " requires parameters.")
      | HandlerResult.otherError msg => PyValue.str msg

/-- One element of the `results` list built by the `/execute_multiple`
endpoint. -/
structure ExecResult where
  function : Option String
  output : PyValue
  code : Option String
deriving DecidableEq

/-- The loop body of `api.py` `execute_multiple`: resolve each prompt in
order, dispatch with no parameters on a match, and append a fixed
no-match entry otherwise; the state is threaded through the whole batch. -/
def execute_multiple (encode : String → EmbVec) (dist : EmbVec → EmbVec → ℚ)
    (env : Env) : List String → String → ApiState → List ExecResult × ApiState
  | [], _, st => ([], st)
  | prompt :: rest, session_id, st =>
      let r := retrieve_best_function encode dist prompt session_id st
      let entry : ExecResult :=
        match r.1 with
        | some name =>
            { function := some name,
              output := execute_function (allowed_lookup env) name Option.none,
              code := some (generate_code name) }
        | Option.none =>
            { function := Option.none,
              output := PyValue.str "No matching function found",
              code := Option.none }
      let rec_result := execute_multiple encode dist env rest session_id r.2
      (entry :: rec_result.1, rec_result.2)

/-- Concrete environment used by the evaluation fixtures below. -/
def env0 : Env :=
  { cpuPercent := "12.0", ramPercent := "34.5",
    listdir := fun _ => Except.ok ["a.txt", "b.txt"] }

/-- Concrete stand-in embedding model for the evaluation fixtures: a few
distinguished texts get their own vectors, everything else collides at
[9]. -/
def enc0 : String → EmbVec := fun s =>
  if s = "near" then [4]
  else if s = "edge" then [4]
  else if s = "list_files" then [1]
  else [9]

/-- Concrete distance metric for the evaluation fixtures: 0 on equal
vectors, 5 otherwise (a kernel-computable discrete metric). -/
def dist0 : EmbVec → EmbVec → ℚ := fun u v => if u = v then 0 else 5

/-- Degenerate fixture metric placing every pair of vectors at distance
exactly `SIMILARITY_THRESHOLD`. -/
def distEdge : EmbVec → EmbVec → ℚ := fun _ _ => SIMILARITY_THRESHOLD

/-- Fresh session memory: every history empty. -/
def emptyMem : SessionMemory := fun _ => []

/-- Fixture state: one collection entry at vector [4]. -/
def st0 : ApiState :=
  { collection := [("get_cpu_usage", [4])], session_memory := emptyMem }

/-- Fixture state whose single entry sits exactly `SIMILARITY_THRESHOLD`
away from every query vector under the `distEdge` metric. -/
def stEdge : ApiState :=
  { collection := [("open_chrome", [4])], session_memory := emptyMem }

/-- Fixture state with an empty collection. -/
def stEmpty : ApiState :=
  { collection := [], session_memory := emptyMem }

/-- Fixture handler standing for a catalog entry with a required parameter
(the spec treats the catalog as a swappable registry; none of the six
shipped actions has a required parameter): calling it without arguments
raises `TypeError`, as Python does for a missing positional argument. -/
def needs_param_handler : Handler := fun kwargs =>
  match kwargs with
  | [] => HandlerResult.typeError "missing 1 required positional argument"
  | _ => HandlerResult.ok PyValue.none

/-- Fixture registry containing the parameter-requiring handler. -/
def registryWithParam : String → Option Handler := fun name =>
  if name = "send_email" then some needs_param_handler else Option.none

/-- Fixture handler returning the empty string, a falsy but present
value. -/
def empty_string_handler : Handler := fun _ =>
  HandlerResult.ok (PyValue.str "")

/-- Fixture registry containing the empty-string-returning handler. -/
def registryWithFalsy : String → Option Handler := fun name =>
  if name = "get_clipboard" then some empty_string_handler else Option.none

/-! ## Theorems -/

/-- Sanity check: the explicit normal form used for
`SIMILARITY_THRESHOLD` is the source's literal 0.45. -/
theorem SIMILARITY_THRESHOLD_eq_dec : SIMILARITY_THRESHOLD = 0.45 := by
  have h : SIMILARITY_THRESHOLD = Rat.divInt 9 20 := Rat.mk'_eq_divInt
  rw [h, Rat.divInt_eq_div]
  norm_num

/-- C1: for every action name absent from the allow-list, the Dispatcher
(`execute_function`) produces the distinct `UnauthorizedAction` condition:
the `ValueError("Unauthorized function access")` raised by the allow-list
check is surfaced as that fixed message, for any parameters, so no default
action is invoked and the result is never the ordinary success marker.
This holds however the name was obtained (direct request or resolver
output), since the check runs on every call. -/
theorem unauthorized_name_always_errors (registry : String → Option Handler)
    (function_name : String) (params : Option KwArgs)
    (h : registry function_name = Option.none) :
    execute_function registry function_name params =
      PyValue.str "Unauthorized function access" ∧
    PyValue.str "Unauthorized function access" ≠
      PyValue.str "Executed Successfully" := by
  constructor
  · simp [execute_function, h]
  · decide

/-- C1 witness: dispatching a synthetic name never present in the shipped
registry, with and without parameters. -/
theorem unauthorized_name_always_errors_witness :
    (execute_function (allowed_lookup env0) "unregistered_action"
        (some [("x", PyValue.int 1)]) =
      PyValue.str "Unauthorized function access" ∧
    PyValue.str "Unauthorized function access" ≠
      PyValue.str "Executed Successfully") ∧
    (execute_function (allowed_lookup env0) "unregistered_action" Option.none =
      PyValue.str "Unauthorized function access" ∧
    PyValue.str "Unauthorized function access" ≠
      PyValue.str "Executed Successfully") :=
  ⟨unauthorized_name_always_errors (allowed_lookup env0) "unregistered_action"
      (some [("x", PyValue.int 1)]) rfl,
   unauthorized_name_always_errors (allowed_lookup env0) "unregistered_action"
      Option.none rfl⟩

/-- C4: dispatching a registered action whose handler raises `TypeError`
when invoked without parameters yields the descriptive parameter-error
message as the returned outcome; the embedded `execute_function` is a total
function, so the exception never propagates as a crash. -/
theorem missing_parameters_reported (registry : String → Option Handler)
    (function_name msg : String) (f : Handler)
    (hreg : registry function_name = some f)
    (hty : f [] = HandlerResult.typeError msg) :
    execute_function registry function_name Option.none =
      PyValue.str ("Error: Function " ++ function_name ++ " requires parameters.") := by
  simp [execute_function, hreg, hty]

/-- C4 witness: the fixture catalog entry with a required parameter,
dispatched without parameters. -/
theorem missing_parameters_reported_witness :
    execute_function registryWithParam "send_email" Option.none =
      PyValue.str ("Error: Function " ++ "send_email" ++ " requires parameters.") :=
  missing_parameters_reported registryWithParam "send_email"
    "missing 1 required positional argument" needs_param_handler rfl rfl

/-- C5: dispatching a registered action whose handler returns no value
(`None`) yields the fixed `"Executed Successfully"` marker, which is a
truthy (non-empty, non-falsy) value. -/
theorem void_handler_normalized (registry : String → Option Handler)
    (function_name : String) (f : Handler)
    (hreg : registry function_name = some f)
    (hnone : f [] = HandlerResult.ok PyValue.none) :
    execute_function registry function_name Option.none =
      PyValue.str "Executed Successfully" ∧
    (PyValue.str "Executed Successfully").truthy = true := by
  refine ⟨?_, by decide⟩
  simp [execute_function, hnone, hreg, PyValue.truthy]

/-- C5 witness: `open_chrome`, a shipped zero-argument action with no
return statement. -/
theorem void_handler_normalized_witness :
    execute_function (allowed_lookup env0) "open_chrome" Option.none =
      PyValue.str "Executed Successfully" ∧
    (PyValue.str "Executed Successfully").truthy = true :=
  void_handler_normalized (allowed_lookup env0) "open_chrome" open_chrome rfl rfl

/-- C10: any falsy handler return value (empty string, 0, False, None) is
replaced by the fixed `"Executed Successfully"` marker, so a caller cannot
tell an empty or zero result from no result at all. -/
theorem falsy_result_masked (registry : String → Option Handler)
    (function_name : String) (f : Handler) (v : PyValue)
    (hreg : registry function_name = some f)
    (hok : f [] = HandlerResult.ok v) (hfalsy : v.truthy = false) :
    execute_function registry function_name Option.none =
      PyValue.str "Executed Successfully" := by
  simp [execute_function, hreg, hok, hfalsy]

/-- C10 witness: a handler returning the empty string is reported exactly
like one returning nothing. -/
theorem falsy_result_masked_witness :
    execute_function registryWithFalsy "get_clipboard" Option.none =
      PyValue.str "Executed Successfully" :=
  falsy_result_masked registryWithFalsy "get_clipboard" empty_string_handler
    (PyValue.str "") rfl rfl rfl

/-- C2: the resolver's threshold behaviour. With an empty index the query
returns no entry and resolution yields no action name; when the query
returns a nearest entry, a distance strictly above `SIMILARITY_THRESHOLD`
yields no action name even though the index is non-empty, while a distance
not exceeding the threshold yields the nearest entry's name. -/
theorem resolver_threshold_behaviour (encode : String → EmbVec)
    (dist : EmbVec → EmbVec → ℚ) (prompt session_id : String) (st : ApiState) :
    (st.collection = [] →
      (retrieve_best_function encode dist prompt session_id st).1 = Option.none) ∧
    (∀ name d, queryNearest dist st.collection (encode prompt) = some (name, d) →
      (d > SIMILARITY_THRESHOLD →
        (retrieve_best_function encode dist prompt session_id st).1 = Option.none) ∧
      (d ≤ SIMILARITY_THRESHOLD →
        (retrieve_best_function encode dist prompt session_id st).1 = some name)) := by
  constructor
  · intro hcol
    simp [retrieve_best_function, hcol, queryNearest]
  · intro name d hq
    constructor
    · intro hgt
      simp [retrieve_best_function, hq, hgt]
    · intro hle
      have hn : ¬ d > SIMILARITY_THRESHOLD := not_lt.mpr hle
      simp [retrieve_best_function, hq, hn]

/-- C2 witness: an empty index, a prompt at distance 5 from the only entry
(rejected), and a prompt at distance 0 (accepted). -/
theorem resolver_threshold_behaviour_witness :
    (retrieve_best_function enc0 dist0 "abc" "s" stEmpty).1 = Option.none ∧
    (retrieve_best_function enc0 dist0 "nonsense!" "s" st0).1 = Option.none ∧
    (retrieve_best_function enc0 dist0 "near" "s" st0).1 = some "get_cpu_usage" :=
  ⟨(resolver_threshold_behaviour enc0 dist0 "abc" "s" stEmpty).1 rfl,
   ((resolver_threshold_behaviour enc0 dist0 "nonsense!" "s" st0).2
      "get_cpu_usage" 5 (by decide)).1 (by decide),
   ((resolver_threshold_behaviour enc0 dist0 "near" "s" st0).2
      "get_cpu_usage" 0 (by decide)).2 (by decide)⟩

/-- C9: the rejection comparison in `retrieve_best_function` is strict
(`best_match_score > SIMILARITY_THRESHOLD`), so a nearest entry at distance
exactly equal to the threshold is accepted and its name returned. -/
theorem threshold_boundary_accepted (encode : String → EmbVec)
    (dist : EmbVec → EmbVec → ℚ) (prompt session_id : String) (st : ApiState)
    (name : String)
    (h : queryNearest dist st.collection (encode prompt) =
      some (name, SIMILARITY_THRESHOLD)) :
    (retrieve_best_function encode dist prompt session_id st).1 = some name := by
  have hn : ¬ SIMILARITY_THRESHOLD > SIMILARITY_THRESHOLD := lt_irrefl _
  simp [retrieve_best_function, h, hn]

/-- C9 witness: a collection entry sitting exactly `SIMILARITY_THRESHOLD`
away from the prompt's embedding is matched. -/
theorem threshold_boundary_accepted_witness :
    (retrieve_best_function enc0 distEdge "edge" "s" stEdge).1 = some "open_chrome" :=
  threshold_boundary_accepted enc0 distEdge "edge" "s" stEdge "open_chrome" (by decide)

/-- C3: the session store lines of `retrieve_best_function`. Recording the
same prompt twice leaves exactly one occurrence of it (re-recording is a
no-op), two distinct prompts each appear exactly once in submission order,
and recording under one session id leaves every other session's history
untouched. -/
theorem session_record_properties (m : SessionMemory) (sid sid2 p q : String)
    (hp : p ∉ m sid) (hq : q ∉ m sid) (hpq : p ≠ q) (hs : sid2 ≠ sid) :
    (record (record m sid p) sid p) sid = m sid ++ [p] ∧
    List.count p ((record (record m sid p) sid p) sid) = 1 ∧
    (record (record m sid p) sid q) sid = m sid ++ [p, q] ∧
    List.count p ((record (record m sid p) sid q) sid) = 1 ∧
    List.count q ((record (record m sid p) sid q) sid) = 1 ∧
    (record m sid p) sid2 = m sid2 := by
  have hcp : List.count p (m sid) = 0 := List.count_eq_zero_of_not_mem hp
  have hcq : List.count q (m sid) = 0 := List.count_eq_zero_of_not_mem hq
  have hqp : q ≠ p := hpq.symm
  refine ⟨?_, ?_, ?_, ?_, ?_, ?_⟩ <;>
    simp [record, hp, hq, hpq, hqp, hs, hcp, hcq, List.count_append,
      List.count_singleton, List.count_cons]

/-- C3 witness: a fresh session, the prompt "hello" recorded twice, then
the distinct prompt "world", observed from session "s" and the untouched
session "t". -/
theorem session_record_properties_witness :
    (record (record emptyMem "s" "hello") "s" "hello") "s" =
      emptyMem "s" ++ ["hello"] ∧
    List.count "hello" ((record (record emptyMem "s" "hello") "s" "hello") "s") = 1 ∧
    (record (record emptyMem "s" "hello") "s" "world") "s" =
      emptyMem "s" ++ ["hello", "world"] ∧
    List.count "hello" ((record (record emptyMem "s" "hello") "s" "world") "s") = 1 ∧
    List.count "world" ((record (record emptyMem "s" "hello") "s" "world") "s") = 1 ∧
    (record emptyMem "s" "hello") "t" = emptyMem "t" :=
  session_record_properties emptyMem "s" "t" "hello" "world"
    (by decide) (by decide) (by decide) (by decide)

/-- Helper shared by the index theorems: whatever the persisted collection
held, the rebuild ends with exactly the fresh name-keyed entries. -/
theorem clear_and_store_functions_eq (encode : String → EmbVec)
    (col : List (String × EmbVec)) :
    clear_and_store_functions encode col =
      allowed_function_names.map (fun n => (n, encode n)) := by
  unfold clear_and_store_functions
  cases col with
  | nil => rfl
  | cons e rest =>
      simp
      intro a b hab hne
      exact ⟨b, hab⟩

/-- C7: after the startup rebuild, the index ids are exactly the registered
action names (one entry per action, in registry order), those names carry
no duplicate, any id outside the registry is absent (no orphans), and the
outcome is independent of whatever stale entries were persisted before. -/
theorem index_rebuild_invariant (encode : String → EmbVec)
    (col : List (String × EmbVec)) :
    (clear_and_store_functions encode col).map Prod.fst = allowed_function_names ∧
    allowed_function_names.Nodup ∧
    (∀ id, id ∉ allowed_function_names →
      id ∉ (clear_and_store_functions encode col).map Prod.fst) ∧
    (∀ col2, clear_and_store_functions encode col =
      clear_and_store_functions encode col2) := by
  have hfst : ∀ c, (clear_and_store_functions encode c).map Prod.fst =
      allowed_function_names := by
    intro c
    rw [clear_and_store_functions_eq]
    simp [allowed_function_names]
  refine ⟨hfst col, by decide, ?_, ?_⟩
  · intro id hid
    rw [hfst col]
    exact hid
  · intro col2
    rw [clear_and_store_functions_eq, clear_and_store_functions_eq]

/-- C7 witness: rebuilding over a stale persisted collection containing an
orphan id and a duplicate of a registered id. -/
theorem index_rebuild_invariant_witness :
    (clear_and_store_functions enc0
        [("stale_action", [1]), ("get_cpu_usage", [2])]).map Prod.fst =
      allowed_function_names ∧
    "stale_action" ∉ (clear_and_store_functions enc0
        [("stale_action", [1]), ("get_cpu_usage", [2])]).map Prod.fst ∧
    clear_and_store_functions enc0 [("stale_action", [1]), ("get_cpu_usage", [2])] =
      clear_and_store_functions enc0 [] :=
  ⟨(index_rebuild_invariant enc0 [("stale_action", [1]), ("get_cpu_usage", [2])]).1,
   (index_rebuild_invariant enc0
      [("stale_action", [1]), ("get_cpu_usage", [2])]).2.2.1 "stale_action" (by decide),
   (index_rebuild_invariant enc0
      [("stale_action", [1]), ("get_cpu_usage", [2])]).2.2.2 []⟩

/-- C8 counterexample: the claim "the text embedded for an action's entry
is its description when one exists, the name only otherwise" is false on
the code. `list_files` has the docstring "Lists files in the specified
directory.", yet `clear_and_store_functions` hands the *name*
`"list_files"` to the embedding model, as the concrete embedding `enc0`
(which separates the two texts) exhibits. -/
theorem index_embeds_descriptor_refuted :
    ¬ (∀ (encode : String → EmbVec) (col : List (String × EmbVec)),
        ∀ name ∈ allowed_function_names,
        (clear_and_store_functions encode col).lookup name =
          some (encode (descriptorSpec name))) := by
  intro hclaim
  have h := hclaim enc0 [] "list_files" (by decide)
  rw [clear_and_store_functions_eq] at h
  exact absurd h (by decide)

/-- Helper for the amended C8: looking a member name up in the freshly
mapped entry list yields that name's own embedding. -/
theorem lookup_map_pair (encode : String → EmbVec) (name : String)
    (l : List String) (h : name ∈ l) :
    (l.map (fun n => (n, encode n))).lookup name = some (encode name) := by
  induction l with
  | nil => cases h
  | cons m rest ih =>
      by_cases hm : name = m
      · subst hm
        simp [List.lookup]
      · rcases List.mem_cons.mp h with h1 | h2
        · exact absurd h1 hm
        · simp [List.lookup, beq_eq_false_iff_ne.mpr hm, ih h2]

/-- C8 amended: for every registered action, the text embedded to produce
its index entry is the action's *name*, even for `list_files`, which has a
human-readable description. -/
theorem index_embeds_action_name (encode : String → EmbVec)
    (col : List (String × EmbVec)) (name : String)
    (h : name ∈ allowed_function_names) :
    (clear_and_store_functions encode col).lookup name = some (encode name) := by
  rw [clear_and_store_functions_eq]
  exact lookup_map_pair encode name allowed_function_names h

/-- C8 amended witness: the entry for `list_files` holds the embedding of
the name text itself. -/
theorem index_embeds_action_name_witness :
    (clear_and_store_functions enc0 []).lookup "list_files" =
      some (enc0 "list_files") :=
  index_embeds_action_name enc0 [] "list_files" (by decide)

/-- Helper for C6: the batch loop emits exactly one result per prompt. -/
theorem execute_multiple_length (encode : String → EmbVec)
    (dist : EmbVec → EmbVec → ℚ) (env : Env) (prompts : List String)
    (session_id : String) (st : ApiState) :
    (execute_multiple encode dist env prompts session_id st).1.length =
      prompts.length := by
  induction prompts generalizing st with
  | nil => rfl
  | cons p rest ih => simp [execute_multiple, ih]

/-- Helper for C6: the batch loop processes a concatenation of prompt lists
as the first list followed by the second, threading the state through. -/
theorem execute_multiple_append (encode : String → EmbVec)
    (dist : EmbVec → EmbVec → ℚ) (env : Env) (l1 l2 : List String)
    (session_id : String) (st : ApiState) :
    execute_multiple encode dist env (l1 ++ l2) session_id st =
      ((execute_multiple encode dist env l1 session_id st).1 ++
        (execute_multiple encode dist env l2 session_id
          (execute_multiple encode dist env l1 session_id st).2).1,
       (execute_multiple encode dist env l2 session_id
          (execute_multiple encode dist env l1 session_id st).2).2) := by
  induction l1 generalizing st with
  | nil => rfl
  | cons p rest ih => simp [execute_multiple, ih]

/-- C6: the batch endpoint loop returns exactly one result entry per input
prompt in input order, and a prompt that resolves to no match (in the
session state reached after the prompts before it) contributes the fixed
no-match entry with a null action name at exactly its own position, while
the prompts after it are still processed (the one-entry-per-prompt count
holds for the whole batch). -/
theorem batch_one_entry_per_prompt (encode : String → EmbVec)
    (dist : EmbVec → EmbVec → ℚ) (env : Env) (session_id : String)
    (st : ApiState) :
    (∀ prompts, (execute_multiple encode dist env prompts session_id st).1.length =
      prompts.length) ∧
    (∀ pre p post,
      (retrieve_best_function encode dist p session_id
        (execute_multiple encode dist env pre session_id st).2).1 = Option.none →
      (execute_multiple encode dist env (pre ++ p :: post) session_id st).1.get?
          pre.length =
        some { function := Option.none,
               output := PyValue.str "No matching function found",
               code := Option.none }) := by
  constructor
  · intro prompts
    exact execute_multiple_length encode dist env prompts session_id st
  · intro pre p post hnone
    have hlen : (execute_multiple encode dist env pre session_id st).1.length =
        pre.length :=
      execute_multiple_length encode dist env pre session_id st
    rw [execute_multiple_append, List.get?_append_right (by rw [hlen]), hlen,
      Nat.sub_self]
    simp [execute_multiple, hnone]

/-- C6 witness: a three-prompt batch whose middle prompt finds no match
still yields three ordered entries, the middle one being the fixed
no-match record. -/
theorem batch_one_entry_per_prompt_witness :
    (execute_multiple enc0 dist0 env0 ["near", "nonsense!", "near"] "s" st0).1.length
        = 3 ∧
    (execute_multiple enc0 dist0 env0 ["near", "nonsense!", "near"] "s" st0).1.get? 1
        = some { function := Option.none,
                 output := PyValue.str "No matching function found",
                 code := Option.none } :=
  ⟨(batch_one_entry_per_prompt enc0 dist0 env0 "s" st0).1 ["near", "nonsense!", "near"],
   (batch_one_entry_per_prompt enc0 dist0 env0 "s" st0).2 ["near"] "nonsense!" ["near"]
     (by decide)⟩
